import Mathlib

/-!
Verification development for the smartgpt plugin layer: a shallow embedding of
`src/plugins/chatgpt/mod.rs` and `src/plugins/google/mod.rs` (dispatch tables,
conversation memory, command functions and lifecycle construction hooks),
together with proofs about it.
-/

namespace SmartGPT

/-- JSON-like structured values: the untyped payload/result of the in-process
protocol (`serde_json::Value`). An object is a list of fields in order. -/
inductive Value where
  | null
  | bool (b : Bool)
  | num (n : Int)
  | str (s : String)
  | arr (elems : List Value)
  | obj (fields : List (String × Value))

/-- Error values the embedded code can produce. `noInvoke` embeds the crate-root
`PluginDataNoInvoke(plugin, operation)`; `decode` embeds a `serde_json::Error`
from a failed typed conversion; `noArg` embeds `CommandNoArgError(command, arg)`;
`googleNoQuery` embeds the fieldless `GoogleNoQueryError`; `external` embeds a
failure of an external collaborator (network/provider); `pluginAbsent` embeds a
failed `plugin_data.get_data(name)` lookup. The carrier shapes of the crate-root
error types are not among the provided files and follow the spec's words:
unknown operation carries plugin name + operation name, missing argument carries
command name + argument name. -/
inductive PluginError where
  | noInvoke (plugin : String) (operation : String)
  | decode (description : String)
  | noArg (command : String) (arg : String)
  | googleNoQuery
  | external (description : String)
  | pluginAbsent (plugin : String)
deriving DecidableEq

/-- Result of running a piece of Rust code: a value, an error (`Err`), or a
panic (an out-of-bounds index aborts rather than returning `Err`). -/
inductive Outcome (α : Type) where
  | ok (a : α)
  | error (e : PluginError)
  | panicked
deriving DecidableEq

/-- The `async_openai` message role. -/
inductive Role where
  | assistant
  | system
  | user
deriving DecidableEq

/-- The plugin's own serializable role (`ChatGPTRole`). -/
inductive ChatGPTRole where
  | assistant
  | system
  | user
deriving DecidableEq

/-- From ChatGPTRole for Role. -/
def ChatGPTRole.toRole : ChatGPTRole → Role
  | .assistant => .assistant
  | .system => .system
  | .user => .user

/-- From Role for ChatGPTRole. -/
def Role.toChatGPTRole : Role → ChatGPTRole
  | .assistant => .assistant
  | .system => .system
  | .user => .user

/-- The `async_openai` request message stored in conversation memory. -/
structure ChatCompletionRequestMessage where
  role : Role
  content : String
  name : Option String
deriving DecidableEq

/-- The plugin's serializable message (`ChatGPTMessage`): a role plus content. -/
structure ChatGPTMessage where
  role : ChatGPTRole
  content : String
deriving DecidableEq

/-- From ChatGPTMessage for ChatCompletionRequestMessage (sets `name: None`). -/
def ChatGPTMessage.toRequestMessage (m : ChatGPTMessage) : ChatCompletionRequestMessage :=
  { role := m.role.toRole, content := m.content, name := none }

/-- From ChatCompletionRequestMessage for ChatGPTMessage (drops `name`). -/
def ChatCompletionRequestMessage.toChatGPTMessage
    (m : ChatCompletionRequestMessage) : ChatGPTMessage :=
  { role := m.role.toChatGPTRole, content := m.content }

/-- The assistant message inside one completion choice. -/
structure ChatCompletionResponseMessage where
  content : String
deriving DecidableEq

/-- One choice of a completion response. -/
structure ChatChoice where
  message : ChatCompletionResponseMessage
deriving DecidableEq

/-- The provider's successful completion response: a list of choices. -/
structure CreateChatCompletionResponse where
  choices : List ChatChoice
deriving DecidableEq

/-- The OpenAI client value carried by the state object; `apply` never reads or
writes it apart from handing it to the external call. -/
structure Client where
  api_key : String
deriving DecidableEq

/-- The ChatGPT plugin's State Object: a client plus conversation memory. -/
structure ChatGPTData where
  client : Client
  memory : List ChatCompletionRequestMessage
deriving DecidableEq

/-- Behaviour of the external completion provider (`client.chat().create(...)`):
given the request messages, either a provider/network error or a response.
This is the one point where `apply` crosses to an external collaborator. -/
def ExtCall : Type := List ChatCompletionRequestMessage → Except String CreateChatCompletionResponse

/-- Field lookup in a serialized object, first match wins. -/
def lookupField : List (String × Value) → String → Option Value
  | [], _ => none
  | (k, v) :: rest, key => if k = key then some v else lookupField rest key

/-- Serde deserialization of `ChatGPTRole` (externally tagged unit variants are
plain strings). -/
def decodeRole : Value → Option ChatGPTRole
  | .str "Assistant" => some .assistant
  | .str "System" => some .system
  | .str "User" => some .user
  | _ => none

/-- Serde deserialization of a `String`. -/
def decodeStr : Value → Option String
  | .str s => some s
  | _ => none

/-- Serde deserialization of a `bool`. -/
def decodeBool : Value → Option Bool
  | .bool b => some b
  | _ => none

/-- Serde deserialization of a `usize`. -/
def decodeNat : Value → Option Nat
  | .num n => if 0 ≤ n then some n.toNat else none
  | _ => none

/-- Serde deserialization of `ChatGPTMessage`: an object providing a `role` and
a `content` field of the right shapes (extra fields are ignored, as serde does
for structs by default). -/
def decodeChatGPTMessage : Value → Option ChatGPTMessage
  | .obj fields =>
    match lookupField fields "role", lookupField fields "content" with
    | some rv, some cv =>
      match decodeRole rv, decodeStr cv with
      | some r, some c => some { role := r, content := c }
      | _, _ => none
    | _, _ => none
  | _ => none

/-- Serde serialization of `ChatGPTRole`. -/
def encodeRole : ChatGPTRole → Value
  | .assistant => .str "Assistant"
  | .system => .str "System"
  | .user => .str "User"

/-- Serde serialization of `ChatGPTMessage`. -/
def encodeChatGPTMessage (m : ChatGPTMessage) : Value :=
  .obj [("role", encodeRole m.role), ("content", .str m.content)]

/-- The fixed system prompt `CHAT_GPT_PROMPT`. -/
def CHAT_GPT_PROMPT : String :=
  "You are ChatGPT, a large language model trained by OpenAI, based on the GPT-3.5 architecture. As an assistant, your purpose is to provide helpful and informative responses to a wide variety of questions and topics, while also engaging in natural and friendly conversation with users.\n\nAs ChatGPT, you must always prioritize safety and appropriate behavior in all interactions. This means that you are programmed to avoid any content that could be harmful or offensive, and to always maintain a respectful and polite tone."

/-- The dispatch table `ChatGPTData::apply`: `len`, `push`, `clear`, `respond`,
`get`, and the unknown-operation default. The external provider call inside
`respond` is the parameter `ext`; `response.choices[0]` on an empty choices
list panics. Returns the Rust outcome together with the state object after the
call. -/
def ChatGPTData.apply (ext : ExtCall) (d : ChatGPTData) (name : String) (value : Value) :
    Outcome Value × ChatGPTData :=
  match name with
  | "len" => (.ok (.num d.memory.length), d)
  | "push" =>
    match decodeChatGPTMessage value with
    | some m =>
      (.ok (.bool true),
        { d with memory := d.memory ++
            [{ role := m.role.toRole, content := m.content, name := none }] })
    | none => (.error (.decode "invalid ChatGPTMessage payload"), d)
  | "clear" => (.ok (.bool true), { d with memory := [] })
  | "respond" =>
    match ext d.memory with
    | .error e => (.error (.external e), d)
    | .ok response =>
      match response.choices with
      | [] => (.panicked, d)
      | choice :: _ => (.ok (.str choice.message.content), d)
  | "get" =>
    (.ok (.arr (d.memory.map fun el => encodeChatGPTMessage el.toChatGPTMessage)), d)
  | _ => (.error (.noInvoke "ChatGPT" name), d)

/-- One `apply` invocation recorded while a command runs: which plugin's state
object was driven and with which operation name. The log is an observation
instrument of the embedding, not data of the program. -/
structure InvokeRecord where
  plugin : String
  operation : String
deriving DecidableEq

/-- ChatGPT data threaded through a command together with the invocation log. -/
def ChatState : Type := ChatGPTData × List InvokeRecord

/-- Modelled from the spec: the Typed Invocation Wrapper `invoke` (declared at
the crate root, which is not among the provided files) serializes the typed
request, calls the Dispatch Trait, and on success converts the untyped result
back into the caller's expected type, failing with a decode error when shapes
mismatch and propagating dispatch failures unchanged. Request serialization
happens at the call sites below, which pass already-encoded payloads. Each call
is recorded in the log. -/
def invoke {α : Type} (decodeRes : Value → Option α) (ext : ExtCall)
    (op : String) (payload : Value) (st : ChatState) : Outcome α × ChatState :=
  match ChatGPTData.apply ext st.1 op payload with
  | (.ok v, d) =>
    match decodeRes v with
    | some a => (.ok a, d, st.2 ++ [⟨"ChatGPT", op⟩])
    | none => (.error (.decode "unexpected response shape"), d, st.2 ++ [⟨"ChatGPT", op⟩])
  | (.error e, d) => (.error e, d, st.2 ++ [⟨"ChatGPT", op⟩])
  | (.panicked, d) => (.panicked, d, st.2 ++ [⟨"ChatGPT", op⟩])

/-- Sequencing of fallible steps (the `?` operator): an error or a panic stops
the chain. -/
def bindC {α β : Type} (r : Outcome α × ChatState)
    (f : α → ChatState → Outcome β × ChatState) : Outcome β × ChatState :=
  match r with
  | (.ok a, st) => f a st
  | (.error e, st) => (.error e, st)
  | (.panicked, st) => (.panicked, st)

/-- The `ask_chatgpt` command body: read `len`; if the memory is empty push the
fixed system prompt; push the user query; `respond`; push the response as an
assistant message; return the response text. -/
def ask_chatgpt (ext : ExtCall) (d : ChatGPTData) (query : String) :
    Outcome String × ChatState :=
  bindC (invoke decodeNat ext "len" (.bool true) (d, [])) fun len st1 =>
    bindC (if len = 0 then
        invoke decodeBool ext "push"
          (encodeChatGPTMessage { role := .system, content := CHAT_GPT_PROMPT }) st1
      else (.ok true, st1)) fun _ st2 =>
      bindC (invoke decodeBool ext "push"
          (encodeChatGPTMessage { role := .user, content := query }) st2) fun _ st3 =>
        bindC (invoke decodeStr ext "respond" (.bool true) st3) fun content st4 =>
          bindC (invoke decodeBool ext "push"
              (encodeChatGPTMessage { role := .assistant, content := content }) st4)
            fun _ st5 => (.ok content, st5)

/-- Argument lookup in the command's string-to-string argument mapping. -/
def lookupArg : List (String × String) → String → Option String
  | [], _ => none
  | (k, v) :: rest, key => if k = key then some v else lookupArg rest key

/-- The `chatgpt` command function: resolve the required `query` argument (with
`CommandNoArgError("ask-chatgpt", "query")` when absent, before any state-store
lookup or operation), then run `ask_chatgpt`. Returns the outcome, the ChatGPT
state object after the call (when present), and the invocation log. -/
def chatgpt (ext : ExtCall) (chatgptData : Option ChatGPTData)
    (args : List (String × String)) :
    Outcome String × Option ChatGPTData × List InvokeRecord :=
  match lookupArg args "query" with
  | none => (.error (.noArg "ask-chatgpt" "query"), chatgptData, [])
  | some query =>
    match chatgptData with
    | none => (.error (.pluginAbsent "ChatGPT"), none, [])
    | some d =>
      match ask_chatgpt ext d query with
      | (out, d1, log) => (out, some d1, log)

/-- Runs a sequence of `(operation, payload)` invocations against a ChatGPT
state object, stopping when an invocation panics (a panic unwinds, so nothing
after it executes); an `Err` leaves the state as `apply` returned it and the
run continues, as a caller catching each error would observe. -/
def runOps (ext : ExtCall) (d : ChatGPTData) : List (String × Value) → ChatGPTData
  | [] => d
  | (op, v) :: rest =>
    match ChatGPTData.apply ext d op v with
    | (.panicked, d1) => d1
    | (.ok _, d1) => runOps ext d1 rest
    | (.error _, d1) => runOps ext d1 rest

/-- Specification count: the number of successful pushes performed since the
most recent `clear` in the trace, starting from `acc` pushes already in memory.
A `push` succeeds exactly when its payload deserializes into a
`ChatGPTMessage`; `clear` resets the count; other operations leave it. -/
def pushesSinceClear : List (String × Value) → Nat → Nat
  | [], acc => acc
  | (op, v) :: rest, acc =>
    if op = "clear" then pushesSinceClear rest 0
    else if op = "push" then
      pushesSinceClear rest (if (decodeChatGPTMessage v).isSome then acc + 1 else acc)
    else pushesSinceClear rest acc

/-- An external provider that never returns a successful response with zero
choices, so `respond` never panics. -/
def PanicFree (ext : ExtCall) : Prop :=
  ∀ msgs r, ext msgs = .ok r → r.choices ≠ []

/-- The ChatGPT plugin's configuration (`ChatGPTPluginConfig`): the `api key`
field. -/
structure ChatGPTPluginConfig where
  api_key : String
deriving DecidableEq

/-- Serde deserialization of `ChatGPTPluginConfig`: an object providing an
`api key` string field. -/
def decodeChatGPTPluginConfig : Value → Option ChatGPTPluginConfig
  | .obj fields =>
    match lookupField fields "api key" with
    | some kv =>
      match decodeStr kv with
      | some k => some { api_key := k }
      | none => none
    | none => none
  | _ => none

/-- The construction hook `ChatGPTCycle::create_data`: deserialize the
configuration (`.ok()?` turns a decode error into absence) and build a state
object with a keyed client and empty memory. -/
def ChatGPTCycle.create_data (value : Value) : Option ChatGPTData :=
  (decodeChatGPTPluginConfig value).map fun config =>
    { client := { api_key := config.api_key }, memory := [] }

/-- The Google plugin's State Object (`GoogleData`): a custom-search-engine id
and an API key. -/
structure GoogleData where
  cse_id : String
  api_key : String
deriving DecidableEq

/-- The dispatch table `GoogleData::apply`: `get api key`, `get cse id`, and
the unknown-operation default; the payload is ignored and the state object is
never mutated. -/
def GoogleData.apply (d : GoogleData) (name : String) (_ : Value) :
    Outcome Value × GoogleData :=
  match name with
  | "get api key" => (.ok (.str d.api_key), d)
  | "get cse id" => (.ok (.str d.cse_id), d)
  | _ => (.error (.noInvoke "Google" name), d)

/-- Serde deserialization of `GoogleData`: an object providing `cse id` and
`api key` string fields. -/
def decodeGoogleData : Value → Option GoogleData
  | .obj fields =>
    match lookupField fields "cse id", lookupField fields "api key" with
    | some cv, some kv =>
      match decodeStr cv, decodeStr kv with
      | some c, some k => some { cse_id := c, api_key := k }
      | _, _ => none
    | _, _ => none
  | _ => none

/-- The construction hook `GoogleCycle::create_data`: deserialize the
configuration into the state object itself, absence on failure. -/
def GoogleCycle.create_data (value : Value) : Option GoogleData :=
  decodeGoogleData value

/-- Behaviour of the Browse plugin's `browse` operation, an external
collaborator of the google command: not among the provided files, so it enters
the embedding as a function from the request URL and parameters to a body or a
failure. -/
def BrowseFn : Type := String → List (String × String) → Except String String

/-- The fixed custom-search endpoint URL. -/
def googleSearchURL : String := "https://www.googleapis.com/customsearch/v1"

/-- The query parameters the google command assembles. -/
def googleParams (api_key cse_id query : String) : List (String × String) :=
  [("key", api_key), ("cx", cse_id), ("q", query), ("num", "7")]

/-- The text the google command returns when the search response body fails to
parse as a `SearchResponse`. -/
def googleParseFailText (query : String) : String :=
  "Unable to parse your Google request for \"" ++ query ++
    "\" Try modifying your query or waiting a bit."

/-- The hint appended to a successful google result. -/
def googleFooter : String :=
  "\n\nYou may want to consider using 'browse-article' to browse the searched websites."

/-- Modelled from the spec: the `SearchResponse` envelope lives in
`plugins/google/types.rs`, which is not among the provided files; the spec
places "parsing the specific response envelope" with the external
collaborators. The composite of `serde_json::from_str::<SearchResponse>` and
`serde_json::to_string` — parse the body, drop unnecessary properties,
re-serialize — enters the embedding as one partial cleanup function from the
body to the slimmed JSON text. -/
def SearchCleanup : Type := String → Option String

/-- The `google` command function, in the source's order: look up the Google
state object, invoke `get api key` then `get cse id`, only then resolve the
required `query` argument (with the fieldless `GoogleNoQueryError` when
absent), look up the Browse plugin, browse the custom-search endpoint, and
either return the slimmed response plus footer or — when the body fails to
parse — return `Ok` with the fixed apology text. Returns the outcome and the
invocation log. -/
def google (googleData : Option GoogleData) (browseData : Option BrowseFn)
    (parseSearch : SearchCleanup) (args : List (String × String)) :
    Outcome String × List InvokeRecord :=
  match googleData with
  | none => (.error (.pluginAbsent "Google"), [])
  | some d =>
    match GoogleData.apply d "get api key" (.bool true) with
    | (.ok akv, d1) =>
      match decodeStr akv with
      | none => (.error (.decode "unexpected response shape"), [⟨"Google", "get api key"⟩])
      | some api_key =>
        match GoogleData.apply d1 "get cse id" (.bool true) with
        | (.ok csv, _) =>
          match decodeStr csv with
          | none => (.error (.decode "unexpected response shape"),
              [⟨"Google", "get api key"⟩, ⟨"Google", "get cse id"⟩])
          | some cse_id =>
            match lookupArg args "query" with
            | none => (.error .googleNoQuery,
                [⟨"Google", "get api key"⟩, ⟨"Google", "get cse id"⟩])
            | some query =>
              match browseData with
              | none => (.error (.pluginAbsent "Browse"),
                  [⟨"Google", "get api key"⟩, ⟨"Google", "get cse id"⟩])
              | some browse =>
                match browse googleSearchURL (googleParams api_key cse_id query) with
                | .error e => (.error (.external e),
                    [⟨"Google", "get api key"⟩, ⟨"Google", "get cse id"⟩,
                      ⟨"Browse", "browse"⟩])
                | .ok body =>
                  match parseSearch body with
                  | none => (.ok (googleParseFailText query),
                      [⟨"Google", "get api key"⟩, ⟨"Google", "get cse id"⟩,
                        ⟨"Browse", "browse"⟩])
                  | some text => (.ok (text ++ googleFooter),
                      [⟨"Google", "get api key"⟩, ⟨"Google", "get cse id"⟩,
                        ⟨"Browse", "browse"⟩])
        | (.error e, _) => (.error e, [⟨"Google", "get api key"⟩, ⟨"Google", "get cse id"⟩])
        | (.panicked, _) => (.panicked, [⟨"Google", "get api key"⟩, ⟨"Google", "get cse id"⟩])
    | (.error e, _) => (.error e, [⟨"Google", "get api key"⟩])
    | (.panicked, _) => (.panicked, [⟨"Google", "get api key"⟩])

/-! Helper lemmas. -/

theorem toRole_toChatGPTRole (r : ChatGPTRole) : r.toRole.toChatGPTRole = r := by
  cases r <;> rfl

theorem toRequestMessage_toChatGPTMessage (m : ChatGPTMessage) :
    m.toRequestMessage.toChatGPTMessage = m := by
  obtain ⟨r, c⟩ := m
  simp [ChatGPTMessage.toRequestMessage, ChatCompletionRequestMessage.toChatGPTMessage,
    toRole_toChatGPTRole]

theorem decode_encodeChatGPTMessage (m : ChatGPTMessage) :
    decodeChatGPTMessage (encodeChatGPTMessage m) = some m := by
  obtain ⟨r, c⟩ := m
  cases r <;> rfl

theorem apply_other_op (ext : ExtCall) (hpf : PanicFree ext) (d : ChatGPTData)
    (op : String) (v : Value) (h1 : op ≠ "clear") (h2 : op ≠ "push") :
    (ChatGPTData.apply ext d op v).2 = d ∧
    (ChatGPTData.apply ext d op v).1 ≠ .panicked := by
  unfold ChatGPTData.apply
  split
  · simp
  · simp at h2
  · simp at h1
  · cases hext : ext d.memory with
    | error e => simp [hext]
    | ok resp =>
      cases hch : resp.choices with
      | nil => exact absurd hch (hpf _ _ hext)
      | cons c cs => simp [hext, hch]
  · simp
  · simp

theorem runOps_memory_length (ext : ExtCall) (hpf : PanicFree ext) :
    ∀ (ops : List (String × Value)) (d : ChatGPTData),
      (runOps ext d ops).memory.length = pushesSinceClear ops d.memory.length := by
  intro ops
  induction ops with
  | nil => intro d; rfl
  | cons hd tl ih =>
    intro d
    obtain ⟨op, v⟩ := hd
    by_cases hclear : op = "clear"
    · subst hclear
      simp [runOps, ChatGPTData.apply, pushesSinceClear]
      simpa using ih { d with memory := [] }
    · by_cases hpush : op = "push"
      · subst hpush
        cases hdec : decodeChatGPTMessage v with
        | some m =>
          simp [runOps, ChatGPTData.apply, pushesSinceClear, hdec]
          simpa using ih { d with memory := d.memory ++
            [{ role := m.role.toRole, content := m.content, name := none }] }
        | none =>
          simp [runOps, ChatGPTData.apply, pushesSinceClear, hdec]
          exact ih d
      · obtain ⟨hst, hpk⟩ := apply_other_op ext hpf d op v hclear hpush
        have hrun : runOps ext d ((op, v) :: tl) = runOps ext (ChatGPTData.apply ext d op v).2 tl := by
          cases hap : (ChatGPTData.apply ext d op v) with
          | mk out d1 =>
            cases out with
            | ok a => simp [runOps, hap]
            | error e => simp [runOps, hap]
            | panicked => exact absurd (by rw [hap]) hpk
        rw [hrun, hst]
        have hcount : pushesSinceClear ((op, v) :: tl) d.memory.length
            = pushesSinceClear tl d.memory.length := by
          simp [pushesSinceClear, hclear, hpush]
        rw [hcount]
        exact ih d

/-! Claim theorems. -/

/-- C1: for both plugin State Objects, `apply` with an operation name outside
that plugin's own dispatch table returns the unknown-operation failure carrying
exactly that plugin's name ("ChatGPT" or "Google") and the requested operation
name, and leaves the state unchanged. Operation names are plugin-local, so each
conjunct carries its own operation name and its own table: another plugin's
operation name (such as "get api key" for ChatGPT, or "len" for Google) is
unknown here like any other. -/
theorem apply_unknown_operation (ext : ExtCall) (d : ChatGPTData) (g : GoogleData)
    (opc opg : String) (v w : Value)
    (hc : opc ∉ ["len", "push", "clear", "respond", "get"])
    (hg : opg ∉ ["get api key", "get cse id"]) :
    ChatGPTData.apply ext d opc v = (.error (.noInvoke "ChatGPT" opc), d) ∧
    GoogleData.apply g opg w = (.error (.noInvoke "Google" opg), g) := by
  constructor
  · unfold ChatGPTData.apply
    split
    · simp at hc
    · simp at hc
    · simp at hc
    · simp at hc
    · simp at hc
    · rfl
  · unfold GoogleData.apply
    split
    · simp at hg
    · simp at hg
    · rfl

/-- Witness for C1 at the other plugin's operation names: "get api key" is not
in ChatGPT's table and "len" is not in Google's. -/
theorem apply_unknown_operation_witness :
    ChatGPTData.apply (fun _ => .error "net") ⟨⟨"key"⟩, []⟩ "get api key" .null
      = (.error (.noInvoke "ChatGPT" "get api key"), ⟨⟨"key"⟩, []⟩) ∧
    GoogleData.apply ⟨"cid", "ak"⟩ "len" .null
      = (.error (.noInvoke "Google" "len"), ⟨"cid", "ak"⟩) :=
  apply_unknown_operation (fun _ => .error "net") ⟨⟨"key"⟩, []⟩ ⟨"cid", "ak"⟩
    "get api key" "len" .null .null (by decide) (by decide)

/-- C3: a successful `push` appends exactly the decoded message to the memory,
and `get` on the result returns the serialized prior contents followed by the
serialized new message, whose last element is that new message. -/
theorem push_then_get (ext : ExtCall) (d : ChatGPTData) (v w : Value)
    (m : ChatGPTMessage) (h : decodeChatGPTMessage v = some m) :
    ChatGPTData.apply ext d "push" v
      = (.ok (.bool true), { d with memory := d.memory ++ [m.toRequestMessage] }) ∧
    (ChatGPTData.apply ext { d with memory := d.memory ++ [m.toRequestMessage] } "get" w).1
      = .ok (.arr ((d.memory.map fun el => encodeChatGPTMessage el.toChatGPTMessage)
          ++ [encodeChatGPTMessage m])) ∧
    ((d.memory.map fun el => encodeChatGPTMessage el.toChatGPTMessage)
        ++ [encodeChatGPTMessage m]).getLast? = some (encodeChatGPTMessage m) := by
  refine ⟨?_, ?_, ?_⟩
  · simp [ChatGPTData.apply, h, ChatGPTMessage.toRequestMessage]
  · simp [ChatGPTData.apply, toRequestMessage_toChatGPTMessage]
  · simp

/-- Witness for C3: pushing a user message into a one-message memory. -/
theorem push_then_get_witness :
    decodeChatGPTMessage (.obj [("role", .str "User"), ("content", .str "hi")])
        = some { role := .user, content := "hi" } ∧
    ChatGPTData.apply (fun _ => .error "net")
        ⟨⟨"key"⟩, [{ role := .system, content := "p", name := none }]⟩ "push"
        (.obj [("role", .str "User"), ("content", .str "hi")])
      = (.ok (.bool true),
          ⟨⟨"key"⟩, [{ role := .system, content := "p", name := none },
            { role := .user, content := "hi", name := none }]⟩) := by
  constructor
  · rfl
  · exact (push_then_get (fun _ => .error "net")
      ⟨⟨"key"⟩, [{ role := .system, content := "p", name := none }]⟩
      (.obj [("role", .str "User"), ("content", .str "hi")]) .null
      { role := .user, content := "hi" } rfl).1

/-- C7: every `ChatGPTData` operation confines its state change to its
documented effect: `len`, `get` and `respond` leave the state unchanged, a
successful `push` appends exactly one message, `clear` empties the memory, and
no operation whatsoever touches the client field. -/
theorem apply_frame (ext : ExtCall) (d : ChatGPTData) (v : Value) :
    (ChatGPTData.apply ext d "len" v).2 = d ∧
    (ChatGPTData.apply ext d "get" v).2 = d ∧
    (ChatGPTData.apply ext d "respond" v).2 = d ∧
    ChatGPTData.apply ext d "clear" v = (.ok (.bool true), { d with memory := [] }) ∧
    (∀ m, decodeChatGPTMessage v = some m →
      ChatGPTData.apply ext d "push" v
        = (.ok (.bool true), { d with memory := d.memory ++ [m.toRequestMessage] })) ∧
    (∀ op, (ChatGPTData.apply ext d op v).2.client = d.client) := by
  refine ⟨?_, ?_, ?_, ?_, ?_, ?_⟩
  · rfl
  · rfl
  · unfold ChatGPTData.apply
    cases hext : ext d.memory with
    | error e => simp [hext]
    | ok resp =>
      cases hch : resp.choices with
      | nil => simp [hext, hch]
      | cons c cs => simp [hext, hch]
  · rfl
  · intro m h
    simp [ChatGPTData.apply, h, ChatGPTMessage.toRequestMessage]
  · intro op
    unfold ChatGPTData.apply
    split
    · rfl
    · split <;> rfl
    · rfl
    · cases hext : ext d.memory with
      | error e => simp [hext]
      | ok resp =>
        cases hch : resp.choices with
        | nil => simp [hext, hch]
        | cons c cs => simp [hext, hch]
    · rfl
    · rfl

/-- Witness for C7 at a decodable push payload. -/
theorem apply_frame_witness :
    (ChatGPTData.apply (fun _ => .error "net") ⟨⟨"key"⟩, []⟩ "len" .null).2
        = ⟨⟨"key"⟩, []⟩ ∧
    ChatGPTData.apply (fun _ => .error "net") ⟨⟨"key"⟩, []⟩ "push"
        (.obj [("role", .str "User"), ("content", .str "hi")])
      = (.ok (.bool true), ⟨⟨"key"⟩, [{ role := .user, content := "hi", name := none }]⟩) := by
  have h := apply_frame (fun _ => .error "net") ⟨⟨"key"⟩, []⟩
    (.obj [("role", .str "User"), ("content", .str "hi")])
  refine ⟨?_, ?_⟩
  · exact (apply_frame (fun _ => .error "net") ⟨⟨"key"⟩, []⟩ .null).1
  · exact h.2.2.2.2.1 { role := .user, content := "hi" } rfl

/-- C8: a `push` whose payload does not deserialize into a `ChatGPTMessage`
fails with a decode error, which is distinct from the unknown-operation error,
and leaves the memory unchanged. -/
theorem push_bad_payload (ext : ExtCall) (d : ChatGPTData) (v : Value)
    (h : decodeChatGPTMessage v = none) :
    ChatGPTData.apply ext d "push" v
      = (.error (.decode "invalid ChatGPTMessage payload"), d) ∧
    ∀ p o, PluginError.decode "invalid ChatGPTMessage payload" ≠ .noInvoke p o := by
  constructor
  · simp [ChatGPTData.apply, h]
  · intro p o hcon
    cases hcon

/-- Witness for C8 at a payload that is not even an object. -/
theorem push_bad_payload_witness :
    ChatGPTData.apply (fun _ => .error "net")
        ⟨⟨"key"⟩, [{ role := .user, content := "hi", name := none }]⟩ "push" (.str "junk")
      = (.error (.decode "invalid ChatGPTMessage payload"),
          ⟨⟨"key"⟩, [{ role := .user, content := "hi", name := none }]⟩) :=
  (push_bad_payload (fun _ => .error "net")
    ⟨⟨"key"⟩, [{ role := .user, content := "hi", name := none }]⟩ (.str "junk") rfl).1

/-- C9: for both construction hooks, a configuration that fails to deserialize
yields absence rather than an error, and one that deserializes yields the state
object — for ChatGPT with a keyed client and an empty message memory. -/
theorem create_data_config (v w : Value) :
    (decodeChatGPTPluginConfig v = none → ChatGPTCycle.create_data v = none) ∧
    (∀ c, decodeChatGPTPluginConfig v = some c →
      ChatGPTCycle.create_data v
        = some { client := { api_key := c.api_key }, memory := [] }) ∧
    (decodeGoogleData w = none → GoogleCycle.create_data w = none) ∧
    (∀ g, decodeGoogleData w = some g → GoogleCycle.create_data w = some g) := by
  refine ⟨?_, ?_, ?_, ?_⟩
  · intro h
    simp [ChatGPTCycle.create_data, h]
  · intro c h
    simp [ChatGPTCycle.create_data, h]
  · intro h
    simp [GoogleCycle.create_data, h]
  · intro g h
    simp [GoogleCycle.create_data, h]

/-- Witness for C9: a valid ChatGPT configuration and an invalid Google one. -/
theorem create_data_config_witness :
    ChatGPTCycle.create_data (.obj [("api key", .str "sk")])
      = some { client := { api_key := "sk" }, memory := [] } ∧
    GoogleCycle.create_data (.str "junk") = none := by
  constructor
  · exact (create_data_config (.obj [("api key", .str "sk")]) (.str "junk")).2.1
      { api_key := "sk" } rfl
  · exact (create_data_config (.obj [("api key", .str "sk")]) (.str "junk")).2.2.1 rfl

/-- C10: `respond` indexes the first choice of the provider's successful
response without a guard: with at least one choice it returns that choice's
message content, and with zero choices it panics rather than returning an
error value. -/
theorem respond_first_choice (ext : ExtCall) (d : ChatGPTData) (v : Value)
    (resp : CreateChatCompletionResponse) (h : ext d.memory = .ok resp) :
    (resp.choices = [] → ChatGPTData.apply ext d "respond" v = (.panicked, d)) ∧
    (∀ c rest, resp.choices = c :: rest →
      ChatGPTData.apply ext d "respond" v = (.ok (.str c.message.content), d)) := by
  constructor
  · intro he
    simp [ChatGPTData.apply, h, he]
  · intro c rest he
    simp [ChatGPTData.apply, h, he]

/-- Witness for C10: an empty-choices response panics, a one-choice response
returns its content. -/
theorem respond_first_choice_witness :
    ChatGPTData.apply (fun _ => .ok ⟨[]⟩) ⟨⟨"key"⟩, []⟩ "respond" .null
      = (.panicked, ⟨⟨"key"⟩, []⟩) ∧
    ChatGPTData.apply (fun _ => .ok ⟨[⟨⟨"hello"⟩⟩]⟩) ⟨⟨"key"⟩, []⟩ "respond" .null
      = (.ok (.str "hello"), ⟨⟨"key"⟩, []⟩) := by
  constructor
  · exact (respond_first_choice (fun _ => .ok ⟨[]⟩) ⟨⟨"key"⟩, []⟩ .null ⟨[]⟩ rfl).1 rfl
  · exact (respond_first_choice (fun _ => .ok ⟨[⟨⟨"hello"⟩⟩]⟩) ⟨⟨"key"⟩, []⟩ .null
      ⟨[⟨⟨"hello"⟩⟩]⟩ rfl).2 ⟨⟨"hello"⟩⟩ [] rfl

/-- C2: starting from empty memory, `ask_chatgpt` with the external call
stubbed to return a fixed text leaves the ChatGPT memory as exactly
[system prompt, user query, assistant stub] and returns the stubbed text. -/
theorem ask_chatgpt_fresh (ext : ExtCall) (d : ChatGPTData) (query stub : String)
    (hmem : d.memory = [])
    (hext : ∀ msgs, ext msgs = .ok { choices := [{ message := { content := stub } }] }) :
    (ask_chatgpt ext d query).1 = .ok stub ∧
    (ask_chatgpt ext d query).2.1.memory =
      [{ role := .system, content := CHAT_GPT_PROMPT, name := none },
       { role := .user, content := query, name := none },
       { role := .assistant, content := stub, name := none }] := by
  obtain ⟨cl, mem⟩ := d
  simp only at hmem
  subst hmem
  simp [ask_chatgpt, bindC, invoke, ChatGPTData.apply, decodeNat, decodeBool, decodeStr,
    decode_encodeChatGPTMessage, hext, ChatGPTRole.toRole]

/-- Witness for C2 at a concrete stub and query. -/
theorem ask_chatgpt_fresh_witness :
    (ask_chatgpt (fun _ => .ok ⟨[⟨⟨"stub text"⟩⟩]⟩) ⟨⟨"key"⟩, []⟩ "hello").1
      = .ok "stub text" ∧
    (ask_chatgpt (fun _ => .ok ⟨[⟨⟨"stub text"⟩⟩]⟩) ⟨⟨"key"⟩, []⟩ "hello").2.1.memory
      = [{ role := .system, content := CHAT_GPT_PROMPT, name := none },
         { role := .user, content := "hello", name := none },
         { role := .assistant, content := "stub text", name := none }] :=
  ask_chatgpt_fresh (fun _ => .ok ⟨[⟨⟨"stub text"⟩⟩]⟩) ⟨⟨"key"⟩, []⟩ "hello" "stub text"
    rfl (fun _ => rfl)

/-- C4: starting from a freshly constructed (empty) memory and running any
sequence of operations under a provider that never returns zero choices, `len`
reports the number of successful pushes performed since the most recent clear;
and `clear` immediately followed by `len` yields 0 from any state. -/
theorem len_counts_pushes (ext : ExtCall) (hpf : PanicFree ext)
    (ops : List (String × Value)) (d0 : ChatGPTData) (h0 : d0.memory = [])
    (v w : Value) :
    (ChatGPTData.apply ext (runOps ext d0 ops) "len" v).1
      = .ok (.num (pushesSinceClear ops 0)) ∧
    ∀ d : ChatGPTData,
      (ChatGPTData.apply ext (ChatGPTData.apply ext d "clear" w).2 "len" v).1
        = .ok (.num 0) := by
  constructor
  · have h := runOps_memory_length ext hpf ops d0
    rw [h0] at h
    simp only [List.length_nil] at h
    simp [ChatGPTData.apply, h]
  · intro d
    simp [ChatGPTData.apply]

/-- Witness for C4: push, clear, push, failed push leaves a count of 1. -/
theorem len_counts_pushes_witness :
    (ChatGPTData.apply (fun _ => .ok ⟨[⟨⟨"stub"⟩⟩]⟩)
        (runOps (fun _ => .ok ⟨[⟨⟨"stub"⟩⟩]⟩) ⟨⟨"key"⟩, []⟩
          [("push", .obj [("role", .str "User"), ("content", .str "hi")]),
           ("clear", .null),
           ("push", .obj [("role", .str "User"), ("content", .str "hi")]),
           ("push", .str "bad")]) "len" .null).1
      = .ok (.num (pushesSinceClear
          [("push", .obj [("role", .str "User"), ("content", .str "hi")]),
           ("clear", .null),
           ("push", .obj [("role", .str "User"), ("content", .str "hi")]),
           ("push", .str "bad")] 0)) ∧
    (ChatGPTData.apply (fun _ => .ok ⟨[⟨⟨"stub"⟩⟩]⟩)
        (ChatGPTData.apply (fun _ => .ok ⟨[⟨⟨"stub"⟩⟩]⟩) ⟨⟨"key"⟩, []⟩ "clear" .null).2
        "len" .null).1 = .ok (.num 0) := by
  have h := len_counts_pushes (fun _ => .ok ⟨[⟨⟨"stub"⟩⟩]⟩)
    (by
      intro msgs r hr
      simp only [Except.ok.injEq] at hr
      subst hr
      simp)
    [("push", .obj [("role", .str "User"), ("content", .str "hi")]),
     ("clear", .null),
     ("push", .obj [("role", .str "User"), ("content", .str "hi")]),
     ("push", .str "bad")] ⟨⟨"key"⟩, []⟩ rfl .null .null
  exact ⟨h.1, h.2 ⟨⟨"key"⟩, []⟩⟩

/-- C5 counterexample: with a configured Google State Object and an argument
map lacking `query`, the google command consults the plugin before failing —
the `get api key` and `get cse id` operations run, then the fieldless
missing-query failure is produced, refuting "this failure is produced before
any plugin operation is attempted". -/
theorem google_missing_query_after_ops :
    google (some ⟨"cid", "ak"⟩) (some fun _ _ => .ok "") (fun _ => none) []
      = (.error .googleNoQuery,
          [⟨"Google", "get api key"⟩, ⟨"Google", "get cse id"⟩]) ∧
    ([⟨"Google", "get api key"⟩, ⟨"Google", "get cse id"⟩] : List InvokeRecord) ≠ [] := by
  constructor
  · rfl
  · simp

/-- C5 amended: ask-chatgpt resolves its required `query` argument first and
fails with `CommandNoArgError("ask-chatgpt", "query")` before any plugin
operation (empty invocation log, state untouched); google also fails when
`query` is absent, but with the fieldless `GoogleNoQueryError` and only after
the Google State Object's `get api key` and `get cse id` operations have
executed. -/
theorem missing_query_behaviour (ext : ExtCall) (chatgptData : Option ChatGPTData)
    (g : GoogleData) (browseData : Option BrowseFn) (parseSearch : SearchCleanup)
    (args : List (String × String)) (h : lookupArg args "query" = none) :
    chatgpt ext chatgptData args
      = (.error (.noArg "ask-chatgpt" "query"), chatgptData, []) ∧
    google (some g) browseData parseSearch args
      = (.error .googleNoQuery,
          [⟨"Google", "get api key"⟩, ⟨"Google", "get cse id"⟩]) := by
  constructor
  · simp [chatgpt, h]
  · simp [google, GoogleData.apply, decodeStr, h]

/-- Witness for C5's amended claim at a concrete argument map without query. -/
theorem missing_query_behaviour_witness :
    chatgpt (fun _ => .error "net") (some ⟨⟨"key"⟩, []⟩) [("other", "x")]
      = (.error (.noArg "ask-chatgpt" "query"), some ⟨⟨"key"⟩, []⟩, []) ∧
    google (some ⟨"cid", "ak"⟩) none (fun _ => none) [("other", "x")]
      = (.error .googleNoQuery,
          [⟨"Google", "get api key"⟩, ⟨"Google", "get cse id"⟩]) :=
  missing_query_behaviour (fun _ => .error "net") (some ⟨⟨"key"⟩, []⟩) ⟨"cid", "ak"⟩
    none (fun _ => none) [("other", "x")] rfl

/-- C6 counterexample: when the browsed body fails to parse as a
`SearchResponse`, the google command returns a successful result carrying the
fixed apology text — an `Ok`, not an error — refuting the claim that such a
failure propagates as an error result. -/
theorem google_parse_failure_returns_ok :
    (google (some ⟨"cid", "ak"⟩) (some fun _ _ => .ok "not json") (fun _ => none)
        [("query", "rust")]).1
      = .ok (googleParseFailText "rust") ∧
    ∀ e, (google (some ⟨"cid", "ak"⟩) (some fun _ _ => .ok "not json") (fun _ => none)
        [("query", "rust")]).1 ≠ .error e := by
  have h1 : (google (some ⟨"cid", "ak"⟩) (some fun _ _ => .ok "not json")
      (fun _ => none) [("query", "rust")]).1 = .ok (googleParseFailText "rust") := rfl
  refine ⟨h1, ?_⟩
  intro e hcon
  rw [h1] at hcon
  cases hcon

/-- C6 amended: google propagates a missing Browse plugin and a failed browse
call as errors, but converts a search-response parse failure into a successful
result carrying the fixed apology text instead of an error. -/
theorem google_error_propagation (g : GoogleData) (parseSearch : SearchCleanup)
    (browse : BrowseFn) (args : List (String × String)) (query : String)
    (h : lookupArg args "query" = some query) :
    google (some g) none parseSearch args
      = (.error (.pluginAbsent "Browse"),
          [⟨"Google", "get api key"⟩, ⟨"Google", "get cse id"⟩]) ∧
    (∀ e, browse googleSearchURL (googleParams g.api_key g.cse_id query) = .error e →
      google (some g) (some browse) parseSearch args
        = (.error (.external e),
            [⟨"Google", "get api key"⟩, ⟨"Google", "get cse id"⟩,
              ⟨"Browse", "browse"⟩])) ∧
    (∀ body, browse googleSearchURL (googleParams g.api_key g.cse_id query) = .ok body →
      parseSearch body = none →
      google (some g) (some browse) parseSearch args
        = (.ok (googleParseFailText query),
            [⟨"Google", "get api key"⟩, ⟨"Google", "get cse id"⟩,
              ⟨"Browse", "browse"⟩])) := by
  refine ⟨?_, ?_, ?_⟩
  · simp [google, GoogleData.apply, decodeStr, h]
  · intro e he
    simp [google, GoogleData.apply, decodeStr, h, he]
  · intro body hb hp
    simp [google, GoogleData.apply, decodeStr, h, hb, hp]

/-- Witness for C6's amended claim: a missing Browse plugin and a timed-out
browse call both propagate as errors. -/
theorem google_error_propagation_witness :
    google (some ⟨"cid", "ak"⟩) none (fun _ => none) [("query", "rust")]
      = (.error (.pluginAbsent "Browse"),
          [⟨"Google", "get api key"⟩, ⟨"Google", "get cse id"⟩]) ∧
    google (some ⟨"cid", "ak"⟩) (some fun _ _ => .error "timeout") (fun _ => none)
        [("query", "rust")]
      = (.error (.external "timeout"),
          [⟨"Google", "get api key"⟩, ⟨"Google", "get cse id"⟩,
            ⟨"Browse", "browse"⟩]) := by
  have h := google_error_propagation ⟨"cid", "ak"⟩ (fun _ => none)
    (fun _ _ => .error "timeout") [("query", "rust")] "rust" rfl
  exact ⟨h.1, h.2.1 "timeout" rfl⟩

end SmartGPT
